import Mathlib

/-!
Shallow embedding of the RentDirect deal-confirmation and payment-settlement
workflow (src/services/deal.service.ts, src/services/payment.service.ts,
src/config/index.ts, and the payment HTTP controller), together with proofs
about the deal state machine, the success-fee schedule, and the payment
reconciliation paths.

Timestamps (`new Date()`) are modelled as a `now : Nat` argument; the HMAC
primitive and the JSON serialization of webhook bodies are abstract function
parameters, since only their input/output behaviour matters to the logic.
-/

namespace RentDirect

/-- Deal status enum from the Prisma schema (`DealStatus`). -/
inductive DealStatus
  | PENDING_BOTH
  | PENDING_OWNER
  | PENDING_TENANT
  | COMPLETED
  | CANCELLED
  deriving DecidableEq, Repr

/-- The Deal record fields that the deal-service operations read or write. -/
structure Deal where
  agreedRent : Nat
  ownerConfirmed : Bool
  tenantConfirmed : Bool
  ownerConfirmedAt : Option Nat
  tenantConfirmedAt : Option Nat
  status : DealStatus
  successFeeAmount : Option Nat
  completedAt : Option Nat
  deriving DecidableEq, Repr

/-- JavaScript truthiness fallback `x || d` for an optional numeric argument:
`undefined` and `0` are both falsy, so both select the default. -/
def jsOrElse (a : Option Nat) (d : Nat) : Nat :=
  match a with
  | none => d
  | some v => if v = 0 then d else v

/-- `config.successFeeSlabs`: `maxRent` bounds with `none` standing for the
JavaScript `Infinity` sentinel of the last slab. -/
def successFeeSlabs : List (Option Nat × Nat) :=
  [(some 10000, 299), (some 25000, 499), (none, 999)]

/-- The comparison `rentAmount < slab.maxRent`; every number is below
`Infinity` (`none`). -/
def rentBelow (rent : Nat) : Option Nat → Bool
  | some maxRent => rent < maxRent
  | none => true

/-- `calculateSuccessFee` from src/config/index.ts: first slab whose bound
exceeds the rent, falling back to the last slab's fee. -/
def calculateSuccessFee (rent : Nat) : Nat :=
  match successFeeSlabs.find? (fun slab => rentBelow rent slab.1) with
  | some slab => slab.2
  | none => (successFeeSlabs.getD (successFeeSlabs.length - 1) (none, 0)).2

/-- `DealService.completeDeal`: sets status COMPLETED, stamps `completedAt`,
and stores the success fee computed from the deal's current `agreedRent`. -/
def completeDeal (d : Deal) (now : Nat) : Deal :=
  { d with
    status := DealStatus.COMPLETED
    completedAt := some now
    successFeeAmount := some (calculateSuccessFee d.agreedRent) }

/-- `DealService.ownerConfirmDeal` on the deal state of one conversation
(`propRent` is `conversation.property.rentAmount`): creates the deal if
absent, else sets the owner flag, replaces `agreedRent`, and derives the
status from the tenant flag; runs `completeDeal` when both flags hold. -/
def ownerConfirmDeal (propRent : Nat) (agreedRent : Option Nat) (now : Nat)
    (s : Option Deal) : Deal :=
  let rentAmount := jsOrElse agreedRent propRent
  let deal : Deal :=
    match s with
    | none =>
        { agreedRent := rentAmount
          ownerConfirmed := true
          tenantConfirmed := false
          ownerConfirmedAt := some now
          tenantConfirmedAt := none
          status := DealStatus.PENDING_TENANT
          successFeeAmount := none
          completedAt := none }
    | some d =>
        { d with
          ownerConfirmed := true
          ownerConfirmedAt := some now
          agreedRent := rentAmount
          status :=
            if d.tenantConfirmed then DealStatus.COMPLETED
            else DealStatus.PENDING_TENANT }
  if deal.ownerConfirmed && deal.tenantConfirmed then completeDeal deal now
  else deal

/-- `DealService.tenantConfirmDeal`: symmetric to the owner path, but takes
no rent argument (creation uses the property's rent). -/
def tenantConfirmDeal (propRent : Nat) (now : Nat) (s : Option Deal) : Deal :=
  let deal : Deal :=
    match s with
    | none =>
        { agreedRent := propRent
          ownerConfirmed := false
          tenantConfirmed := true
          ownerConfirmedAt := none
          tenantConfirmedAt := some now
          status := DealStatus.PENDING_OWNER
          successFeeAmount := none
          completedAt := none }
    | some d =>
        { d with
          tenantConfirmed := true
          tenantConfirmedAt := some now
          status :=
            if d.ownerConfirmed then DealStatus.COMPLETED
            else DealStatus.PENDING_OWNER }
  if deal.ownerConfirmed && deal.tenantConfirmed then completeDeal deal now
  else deal

/-- `DealService.cancelDeal`: the lookup excludes COMPLETED deals, so a
missing or COMPLETED deal fails; otherwise the status becomes CANCELLED. -/
def cancelDeal (s : Option Deal) : Except String Deal :=
  match s with
  | none => Except.error "Deal not found or cannot be cancelled"
  | some d =>
      if d.status = DealStatus.COMPLETED then
        Except.error "Deal not found or cannot be cancelled"
      else Except.ok { d with status := DealStatus.CANCELLED }

/-- `DealService.getOrCreateDeal`: returns the existing deal, or creates one
in PENDING_BOTH with `agreedRent || conversation.property.rentAmount`. -/
def getOrCreateDeal (propRent : Nat) (agreedRent : Nat) (s : Option Deal) :
    Deal :=
  match s with
  | some d => d
  | none =>
      { agreedRent := jsOrElse (some agreedRent) propRent
        ownerConfirmed := false
        tenantConfirmed := false
        ownerConfirmedAt := none
        tenantConfirmedAt := none
        status := DealStatus.PENDING_BOTH
        successFeeAmount := none
        completedAt := none }

/-- One user-reachable deal operation. -/
inductive DealOp
  | ownerConfirm (agreedRent : Option Nat) (now : Nat)
  | tenantConfirm (now : Nat)
  | cancel
  deriving DecidableEq, Repr

/-- Apply one operation to the conversation's deal slot; a failing cancel
leaves the state untouched. -/
def applyDealOp (propRent : Nat) (s : Option Deal) : DealOp → Option Deal
  | DealOp.ownerConfirm a now => some (ownerConfirmDeal propRent a now s)
  | DealOp.tenantConfirm now => some (tenantConfirmDeal propRent now s)
  | DealOp.cancel =>
      match cancelDeal s with
      | Except.ok d => some d
      | Except.error _ => s

/-- Run a sequence of deal operations. -/
def runDealOps (propRent : Nat) (ops : List DealOp) (s : Option Deal) :
    Option Deal :=
  ops.foldl (applyDealOp propRent) s

/-- The mutual-consent coherence property of a deal slot. -/
def confirmStatusCoherent (s : Option Deal) : Prop :=
  ∀ d, s = some d →
    (d.status = DealStatus.COMPLETED ↔
      (d.ownerConfirmed = true ∧ d.tenantConfirmed = true))

theorem coherent_none : confirmStatusCoherent none := by
  intro d h
  exact Option.noConfusion h

theorem coherent_step (propRent : Nat) (op : DealOp) (s : Option Deal)
    (h : confirmStatusCoherent s) :
    confirmStatusCoherent (applyDealOp propRent s op) := by
  intro d hd
  cases op with
  | ownerConfirm a now =>
    cases s with
    | none =>
      simp only [applyDealOp, ownerConfirmDeal, Option.some.injEq] at hd
      subst hd
      simp
    | some d0 =>
      cases htc : d0.tenantConfirmed with
      | false =>
        simp only [applyDealOp, ownerConfirmDeal, htc, Option.some.injEq,
          if_false, Bool.false_eq_true, Bool.and_false] at hd
        subst hd
        simp [htc]
      | true =>
        simp only [applyDealOp, ownerConfirmDeal, completeDeal, htc,
          Option.some.injEq, if_true, Bool.and_true] at hd
        subst hd
        simp
  | tenantConfirm now =>
    cases s with
    | none =>
      simp only [applyDealOp, tenantConfirmDeal, Option.some.injEq] at hd
      subst hd
      simp
    | some d0 =>
      cases hoc : d0.ownerConfirmed with
      | false =>
        simp only [applyDealOp, tenantConfirmDeal, hoc, Option.some.injEq,
          if_false, Bool.false_eq_true, Bool.false_and] at hd
        subst hd
        simp [hoc]
      | true =>
        simp only [applyDealOp, tenantConfirmDeal, completeDeal, hoc,
          Option.some.injEq, if_true, Bool.true_and] at hd
        subst hd
        simp
  | cancel =>
    cases s with
    | none =>
      simp only [applyDealOp, cancelDeal] at hd
      exact Option.noConfusion hd
    | some d0 =>
      by_cases hs : d0.status = DealStatus.COMPLETED
      · simp only [applyDealOp, cancelDeal, hs, if_true,
          Option.some.injEq] at hd
        subst hd
        exact h d0 rfl
      · simp only [applyDealOp, cancelDeal, hs, if_false,
          Option.some.injEq] at hd
        subst hd
        constructor
        · intro hfalse
          exact absurd hfalse (by simp)
        · intro hboth
          exact absurd ((h d0 rfl).mpr hboth) hs

theorem coherent_run (propRent : Nat) (ops : List DealOp) (s : Option Deal)
    (h : confirmStatusCoherent s) :
    confirmStatusCoherent (runDealOps propRent ops s) := by
  induction ops generalizing s with
  | nil => exact h
  | cons op rest ih =>
    have hstep := coherent_step propRent op s h
    simpa [runDealOps, List.foldl] using ih (applyDealOp propRent s op) hstep

/-- C1: after any sequence of ownerConfirm, tenantConfirm and cancel
operations starting from no deal, the deal's status is COMPLETED exactly
when both confirmation flags are true. -/
theorem deal_completed_iff_both_confirmed (propRent : Nat)
    (ops : List DealOp) (d : Deal)
    (h : runDealOps propRent ops none = some d) :
    d.status = DealStatus.COMPLETED ↔
      (d.ownerConfirmed = true ∧ d.tenantConfirmed = true) :=
  coherent_run propRent ops none coherent_none d h

/-- The deal produced by an owner confirmation followed by a tenant
confirmation at property rent 5000. -/
def dealBothConfirmed : Deal :=
  { agreedRent := 5000
    ownerConfirmed := true
    tenantConfirmed := true
    ownerConfirmedAt := some 0
    tenantConfirmedAt := some 1
    status := DealStatus.COMPLETED
    successFeeAmount := some 299
    completedAt := some 1 }

/-- Witness for C1 at a concrete two-step trace. -/
theorem deal_completed_iff_both_confirmed_witness :
    dealBothConfirmed.status = DealStatus.COMPLETED ↔
      (dealBothConfirmed.ownerConfirmed = true ∧
        dealBothConfirmed.tenantConfirmed = true) :=
  deal_completed_iff_both_confirmed 5000
    [DealOp.ownerConfirm none 0, DealOp.tenantConfirm 1]
    dealBothConfirmed (by decide)

/-- C2: the success fee follows the flat slab schedule with strict bounds,
matches the listed boundary values, and `completeDeal` stores exactly the
slab fee of the deal's agreed rent. -/
theorem success_fee_slab_schedule (rent : Nat) (d : Deal) (now : Nat) :
    (rent < 10000 → calculateSuccessFee rent = 299) ∧
    (10000 ≤ rent → rent < 25000 → calculateSuccessFee rent = 499) ∧
    (25000 ≤ rent → calculateSuccessFee rent = 999) ∧
    calculateSuccessFee 9999 = 299 ∧
    calculateSuccessFee 10000 = 499 ∧
    calculateSuccessFee 24999 = 499 ∧
    calculateSuccessFee 25000 = 999 ∧
    calculateSuccessFee 1000000 = 999 ∧
    (completeDeal d now).successFeeAmount =
      some (calculateSuccessFee d.agreedRent) := by
  refine ⟨?_, ?_, ?_, by decide, by decide, by decide, by decide, by decide,
    rfl⟩
  · intro h1
    simp [calculateSuccessFee, successFeeSlabs, rentBelow, List.find?, h1]
  · intro h1 h2
    have h3 : ¬ rent < 10000 := by omega
    simp [calculateSuccessFee, successFeeSlabs, rentBelow, List.find?,
      h2, h3]
  · intro h1
    have h2 : ¬ rent < 10000 := by omega
    have h3 : ¬ rent < 25000 := by omega
    simp [calculateSuccessFee, successFeeSlabs, rentBelow, List.find?,
      h2, h3]

/-- Witness for C2 at the slab boundaries. -/
theorem success_fee_slab_schedule_witness :
    calculateSuccessFee 9998 = 299 ∧ calculateSuccessFee 10001 = 499 ∧
    calculateSuccessFee 25001 = 999 :=
  ⟨(success_fee_slab_schedule 9998 dealBothConfirmed 0).1 (by decide),
    ((success_fee_slab_schedule 10001 dealBothConfirmed 0).2.1 (by decide)
      (by decide)),
    ((success_fee_slab_schedule 25001 dealBothConfirmed 0).2.2.1
      (by decide))⟩

/-- Deal slot after confirming with rent 9000 on both sides (property rent
8000): COMPLETED with fee 299. -/
def dealStateAfterCompletion : Option Deal :=
  runDealOps 8000 [DealOp.ownerConfirm (some 9000) 0, DealOp.tenantConfirm 1]
    none

/-- The same slot after the owner re-confirms with rent 30000. -/
def dealStateAfterReconfirm : Option Deal :=
  applyDealOp 8000 dealStateAfterCompletion (DealOp.ownerConfirm (some 30000) 2)

/-- C3 counterexample: a deal completed at rent 9000 carries fee 299, but a
later ownerConfirm with rent 30000 on the already-COMPLETED deal re-runs
completion and overwrites the fee with 999. -/
theorem success_fee_not_immutable_cex :
    dealStateAfterCompletion.map Deal.status = some DealStatus.COMPLETED ∧
    dealStateAfterCompletion.map Deal.successFeeAmount = some (some 299) ∧
    dealStateAfterReconfirm.map Deal.successFeeAmount = some (some 999) := by
  decide

/-- C3 amended: successFeeAmount is written at every transition into
COMPLETED, including repeats — an ownerConfirm on an existing deal whose
tenant flag is already set recomputes the fee from the newly stored
agreedRent; a cancel operation never changes successFeeAmount. -/
theorem success_fee_recomputed_on_reconfirm (propRent now : Nat)
    (a : Option Nat) (d : Deal) (h : d.tenantConfirmed = true) :
    (ownerConfirmDeal propRent a now (some d)).successFeeAmount =
      some (calculateSuccessFee (jsOrElse a propRent)) ∧
    ∀ s : Option Deal,
      (applyDealOp propRent s DealOp.cancel).map Deal.successFeeAmount =
        s.map Deal.successFeeAmount := by
  constructor
  · simp [ownerConfirmDeal, completeDeal, h]
  · intro s
    cases s with
    | none => rfl
    | some d0 =>
      by_cases hs : d0.status = DealStatus.COMPLETED
      · simp [applyDealOp, cancelDeal, hs]
      · simp [applyDealOp, cancelDeal, hs]

/-- Witness for the amended C3 at a concrete completed deal. -/
theorem success_fee_recomputed_on_reconfirm_witness :
    (ownerConfirmDeal 8000 (some 30000) 2 (some dealBothConfirmed)).successFeeAmount =
      some (calculateSuccessFee (jsOrElse (some 30000) 8000)) :=
  (success_fee_recomputed_on_reconfirm 8000 2 (some 30000) dealBothConfirmed
    (by decide)).1

/-- Deal slot after an owner confirmation and then a cancel. -/
def dealStateCancelled : Option Deal :=
  runDealOps 5000 [DealOp.ownerConfirm none 0, DealOp.cancel] none

/-- The cancelled slot after the owner confirms again. -/
def dealStateResurrected : Option Deal :=
  applyDealOp 5000 dealStateCancelled (DealOp.ownerConfirm none 1)

/-- C4 counterexample: a CANCELLED deal is moved back to PENDING_TENANT by a
subsequent ownerConfirm, so CANCELLED is not terminal under the confirm
operations. -/
theorem cancelled_not_terminal_cex :
    dealStateCancelled.map Deal.status = some DealStatus.CANCELLED ∧
    dealStateResurrected.map Deal.status = some DealStatus.PENDING_TENANT := by
  decide

/-- C4 amended: cancelDeal fails exactly on COMPLETED deals and otherwise
sets status CANCELLED (so cancel succeeds from every pending state and
cancel itself never leaves CANCELLED), but CANCELLED is not terminal:
ownerConfirm and tenantConfirm move a CANCELLED deal back to a pending or
completed status. -/
theorem cancel_rejected_iff_completed (d : Deal) :
    (d.status = DealStatus.COMPLETED →
      cancelDeal (some d) =
        Except.error "Deal not found or cannot be cancelled") ∧
    (d.status ≠ DealStatus.COMPLETED →
      cancelDeal (some d) =
        Except.ok { d with status := DealStatus.CANCELLED }) ∧
    (∀ propRent now, ∀ a : Option Nat,
      (ownerConfirmDeal propRent a now (some d)).status ≠
        DealStatus.CANCELLED) ∧
    (∀ propRent now,
      (tenantConfirmDeal propRent now (some d)).status ≠
        DealStatus.CANCELLED) := by
  refine ⟨?_, ?_, ?_, ?_⟩
  · intro h
    simp [cancelDeal, h]
  · intro h
    simp [cancelDeal, h]
  · intro propRent now a
    cases htc : d.tenantConfirmed with
    | false => simp [ownerConfirmDeal, completeDeal, htc]
    | true => simp [ownerConfirmDeal, completeDeal, htc]
  · intro propRent now
    cases hoc : d.ownerConfirmed with
    | false => simp [tenantConfirmDeal, completeDeal, hoc]
    | true => simp [tenantConfirmDeal, completeDeal, hoc]

/-- A concrete CANCELLED deal used to witness the amended C4. -/
def dealCancelledW : Deal :=
  { agreedRent := 5000
    ownerConfirmed := true
    tenantConfirmed := false
    ownerConfirmedAt := some 0
    tenantConfirmedAt := none
    status := DealStatus.CANCELLED
    successFeeAmount := none
    completedAt := none }

/-- Witness for the amended C4: cancel is rejected on a COMPLETED deal,
succeeds on a CANCELLED one, and ownerConfirm leaves CANCELLED. -/
theorem cancel_rejected_iff_completed_witness :
    cancelDeal (some dealBothConfirmed) =
      Except.error "Deal not found or cannot be cancelled" ∧
    cancelDeal (some dealCancelledW) =
      Except.ok { dealCancelledW with status := DealStatus.CANCELLED } ∧
    (ownerConfirmDeal 5000 none 1 (some dealCancelledW)).status ≠
      DealStatus.CANCELLED :=
  ⟨(cancel_rejected_iff_completed dealBothConfirmed).1 (by decide),
    (cancel_rejected_iff_completed dealCancelledW).2.1 (by decide),
    (cancel_rejected_iff_completed dealCancelledW).2.2.1 5000 1 none⟩

/-- C10: the JavaScript falsy fallback makes a supplied agreedRent of 0
behave exactly like an absent agreedRent — ownerConfirm stores the
property's rent, and so does getOrCreateDeal. -/
theorem agreed_rent_zero_treated_as_absent (propRent now : Nat)
    (s : Option Deal) :
    ownerConfirmDeal propRent (some 0) now s =
      ownerConfirmDeal propRent none now s ∧
    (ownerConfirmDeal propRent (some 0) now none).agreedRent = propRent ∧
    (getOrCreateDeal propRent 0 none).agreedRent = propRent := by
  refine ⟨?_, ?_, ?_⟩
  · cases s with
    | none => simp [ownerConfirmDeal, jsOrElse]
    | some d0 => simp [ownerConfirmDeal, jsOrElse]
  · simp [ownerConfirmDeal, jsOrElse]
  · simp [getOrCreateDeal, jsOrElse]

/-- Payment status enum from the Prisma schema (`PaymentStatus`). -/
inductive PaymentStatus
  | PENDING
  | INITIATED
  | COMPLETED
  | FAILED
  | REFUNDED
  | CANCELLED
  deriving DecidableEq, Repr

/-- The Payment record fields the payment service reads or writes. -/
structure Payment where
  razorpayOrderId : String
  razorpayPaymentId : Option String
  razorpaySignature : Option String
  status : PaymentStatus
  method : Option String
  amount : Nat
  completedAt : Option Nat
  failedAt : Option Nat
  refundedAt : Option Nat
  deriving DecidableEq, Repr

/-- One `PaymentLog` row (a PaymentEvent in the spec's terms). -/
structure PaymentLogEntry where
  event : String
  status : String
  errorMessage : Option String
  deriving DecidableEq, Repr

/-- The Deal's payment flag (`paymentStatus` column). -/
inductive DealPaymentStatus
  | UNPAID
  | PAID
  deriving DecidableEq, Repr

/-- The store state touched by the payment service for one deal: its unique
Payment row (if any), the deal's payment columns, and the append-only
payment log (oldest first). -/
structure PayState where
  payment : Option Payment
  dealPaymentStatus : DealPaymentStatus
  dealPaymentId : Option String
  logs : List PaymentLogEntry
  deriving DecidableEq, Repr

/-- `PaymentService.verifyPayment`: looks up the Payment by dealId, checks
the stored order id, recomputes the HMAC over `orderId|paymentId` with the
gateway key secret, logs and rejects a mismatching signature, and on a match
completes the payment, marks the deal PAID, and logs the completion. -/
def verifyPayment (hmac : String → String → String) (keySecret : String)
    (razorpayOrderId razorpayPaymentId razorpaySignature : String)
    (now : Nat) (s : PayState) : PayState × Except String Payment :=
  match s.payment with
  | none => (s, Except.error "Payment record not found")
  | some p =>
      if p.razorpayOrderId ≠ razorpayOrderId then
        (s, Except.error "Order ID mismatch")
      else
        let body := razorpayOrderId ++ "|" ++ razorpayPaymentId
        let expectedSignature := hmac keySecret body
        if expectedSignature ≠ razorpaySignature then
          ({ s with
              logs := s.logs ++
                [{ event := "SIGNATURE_VERIFICATION_FAILED"
                   status := "FAILED"
                   errorMessage := some "Signature verification failed" }] },
            Except.error "Invalid payment signature")
        else
          let updatedPayment : Payment :=
            { p with
              razorpayPaymentId := some razorpayPaymentId
              razorpaySignature := some razorpaySignature
              status := PaymentStatus.COMPLETED
              completedAt := some now }
          ({ s with
              payment := some updatedPayment
              dealPaymentStatus := DealPaymentStatus.PAID
              dealPaymentId := some razorpayPaymentId
              logs := s.logs ++
                [{ event := "PAYMENT_COMPLETED"
                   status := "SUCCESS"
                   errorMessage := none }] },
            Except.ok updatedPayment)

/-- A `payload.payment.entity` from a gateway webhook. -/
structure WebhookPaymentEntity where
  id : String
  order_id : String
  method : String
  deriving DecidableEq, Repr

/-- A `payload.refund.entity` from a gateway webhook. -/
structure WebhookRefundEntity where
  payment_id : String
  deriving DecidableEq, Repr

/-- A parsed webhook body: event name plus optional payment/refund
entities. -/
structure WebhookData where
  event : String
  payment : Option WebhookPaymentEntity
  refund : Option WebhookRefundEntity
  deriving DecidableEq, Repr

/-- `mapPaymentMethod`: the gateway method string mapped to the method enum,
falling back to the raw string. -/
def mapPaymentMethod (method : String) : String :=
  if method = "card" then "CREDIT_CARD"
  else if method = "debit_card" then "DEBIT_CARD"
  else if method = "netbanking" then "NET_BANKING"
  else if method = "upi" then "UPI"
  else if method = "wallet" then "WALLET"
  else if method = "emandate" then "EMI"
  else method

/-- `handlePaymentAuthorized`: find by order id; if present, append only an
audit row, with no status change. -/
def handlePaymentAuthorized (wd : WebhookData) (s : PayState) : PayState :=
  match wd.payment with
  | none => s
  | some pe =>
      match s.payment with
      | none => s
      | some p =>
          if p.razorpayOrderId = pe.order_id then
            { s with
                logs := s.logs ++
                  [{ event := "PAYMENT_AUTHORIZED"
                     status := "SUCCESS"
                     errorMessage := none }] }
          else s

/-- `handlePaymentCompleted`: find by payment id; if present, set status
COMPLETED with method and completedAt, mark the deal PAID, and append a
PAYMENT_COMPLETED row. -/
def handlePaymentCompleted (wd : WebhookData) (now : Nat) (s : PayState) :
    PayState :=
  match wd.payment with
  | none => s
  | some pe =>
      match s.payment with
      | none => s
      | some p =>
          if p.razorpayPaymentId = some pe.id then
            { s with
                payment := some
                  { p with
                    status := PaymentStatus.COMPLETED
                    method := some (mapPaymentMethod pe.method)
                    completedAt := some now }
                dealPaymentStatus := DealPaymentStatus.PAID
                dealPaymentId := some pe.id
                logs := s.logs ++
                  [{ event := "PAYMENT_COMPLETED"
                     status := "SUCCESS"
                     errorMessage := none }] }
          else s

/-- `handlePaymentFailed`: find by order id; if present, set status FAILED
with failedAt and append a PAYMENT_FAILED row. -/
def handlePaymentFailed (wd : WebhookData) (now : Nat) (s : PayState) :
    PayState :=
  match wd.payment with
  | none => s
  | some pe =>
      match s.payment with
      | none => s
      | some p =>
          if p.razorpayOrderId = pe.order_id then
            { s with
                payment := some
                  { p with
                    status := PaymentStatus.FAILED
                    failedAt := some now }
                logs := s.logs ++
                  [{ event := "PAYMENT_FAILED"
                     status := "FAILED"
                     errorMessage := none }] }
          else s

/-- `handleRefundCompleted`: find by the refunded payment's id; if present,
set status REFUNDED with refundedAt and append a REFUND_COMPLETED row. -/
def handleRefundCompleted (wd : WebhookData) (now : Nat) (s : PayState) :
    PayState :=
  match wd.refund with
  | none => s
  | some re =>
      match s.payment with
      | none => s
      | some p =>
          if p.razorpayPaymentId = some re.payment_id then
            { s with
                payment := some
                  { p with
                    status := PaymentStatus.REFUNDED
                    refundedAt := some now }
                logs := s.logs ++
                  [{ event := "REFUND_COMPLETED"
                     status := "SUCCESS"
                     errorMessage := none }] }
          else s

/-- `PaymentService.handleWebhook`: verify the HMAC of the serialized body
against the separate webhook secret, failing closed on mismatch, then
dispatch on the event name (unknown events are ignored). -/
def handleWebhook (hmac : String → String → String)
    (serialize : WebhookData → String) (webhookSecret : String)
    (wd : WebhookData) (webhookSignature : String) (now : Nat)
    (s : PayState) : PayState × Except String Unit :=
  let body := serialize wd
  let expectedSignature := hmac webhookSecret body
  if expectedSignature ≠ webhookSignature then
    (s, Except.error "Invalid webhook signature")
  else
    let s' :=
      if wd.event = "payment.authorized" then handlePaymentAuthorized wd s
      else if wd.event = "payment.completed" then
        handlePaymentCompleted wd now s
      else if wd.event = "payment.failed" then handlePaymentFailed wd now s
      else if wd.event = "refund.completed" then
        handleRefundCompleted wd now s
      else s
    (s', Except.ok ())

/-- An HTTP response as produced by the response helpers: `sendSuccess`
defaults to 200 with `success:true`; an `AppError` carries its own status
code with `success:false`. -/
structure HttpResponse where
  statusCode : Nat
  success : Bool
  message : String
  deriving DecidableEq, Repr

/-- `PaymentController.handleWebhook`: a missing signature header raises
BadRequest inside the try block, and every error from the service is caught
and converted into a 200 acknowledgment. -/
def controllerHandleWebhook (hmac : String → String → String)
    (serialize : WebhookData → String) (webhookSecret : String)
    (wd : WebhookData) (signatureHeader : Option String) (now : Nat)
    (s : PayState) : PayState × HttpResponse :=
  match signatureHeader with
  | none => (s, { statusCode := 200, success := true, message := "Webhook received" })
  | some sg =>
      match handleWebhook hmac serialize webhookSecret wd sg now s with
      | (s', Except.ok _) =>
          (s', { statusCode := 200, success := true, message := "Webhook processed successfully" })
      | (s', Except.error _) =>
          (s', { statusCode := 200, success := true, message := "Webhook received" })

/-- The payload returned by `getPaymentDetails`: the payment with its log
rows ordered by `createdAt` descending (newest first). -/
structure PaymentDetails where
  payment : Payment
  logs : List PaymentLogEntry
  deriving DecidableEq, Repr

/-- `PaymentService.getPaymentDetails`: read-only lookup returning the
payment with its events newest-first, or `none` without error. -/
def getPaymentDetails (s : PayState) : Option PaymentDetails :=
  match s.payment with
  | none => none
  | some p => some { payment := p, logs := s.logs.reverse }

/-- `PaymentController.getPaymentDetails`: a `none` from the service is
turned into a 404 NotFound response; otherwise 200. -/
def controllerGetPaymentDetails (s : PayState) : HttpResponse :=
  match getPaymentDetails s with
  | none => { statusCode := 404, success := false, message := "Payment not found" }
  | some _ =>
      { statusCode := 200, success := true, message := "Payment details retrieved successfully" }

/-- The gateway refund request issued by `refundPayment`: the refunded
external payment id and the full captured amount. -/
structure RefundRequest where
  paymentId : String
  amount : Nat
  deriving DecidableEq, Repr

/-- `PaymentService.refundPayment`: reject a missing payment, a missing
external payment id, or a non-COMPLETED status; otherwise call the gateway
refund for the full amount and append a REFUND_INITIATED row, leaving the
Payment row itself untouched. -/
def refundPayment (s : PayState) :
    PayState × Except String RefundRequest :=
  match s.payment with
  | none => (s, Except.error "Payment not found")
  | some p =>
      match p.razorpayPaymentId with
      | none => (s, Except.error "No Razorpay payment to refund")
      | some rpid =>
          if p.status ≠ PaymentStatus.COMPLETED then
            (s, Except.error "Can only refund completed payments")
          else
            ({ s with
                logs := s.logs ++
                  [{ event := "REFUND_INITIATED"
                     status := "SUCCESS"
                     errorMessage := none }] },
              Except.ok { paymentId := rpid, amount := p.amount })

/-- C5: when the payment exists and the stored order id matches, a supplied
signature that differs from the HMAC of `orderId|paymentId` under the
gateway key secret makes verifyPayment append a
PaymentEvent(SIGNATURE_VERIFICATION_FAILED, FAILED) and fail with the
invalid-signature error, leaving the Payment row and the deal's payment
columns unchanged. -/
theorem verify_payment_bad_signature (hmac : String → String → String)
    (keySecret orderId paymentId signature : String) (now : Nat)
    (s : PayState) (p : Payment)
    (hp : s.payment = some p) (ho : p.razorpayOrderId = orderId)
    (hs : signature ≠ hmac keySecret (orderId ++ "|" ++ paymentId)) :
    verifyPayment hmac keySecret orderId paymentId signature now s =
      ({ s with
          logs := s.logs ++
            [{ event := "SIGNATURE_VERIFICATION_FAILED"
               status := "FAILED"
               errorMessage := some "Signature verification failed" }] },
        Except.error "Invalid payment signature") ∧
    (verifyPayment hmac keySecret orderId paymentId signature now s).1.payment =
      s.payment ∧
    (verifyPayment hmac keySecret orderId paymentId signature now s).1.dealPaymentStatus =
      s.dealPaymentStatus ∧
    (verifyPayment hmac keySecret orderId paymentId signature now s).1.dealPaymentId =
      s.dealPaymentId := by
  have hs2 : hmac keySecret (orderId ++ "|" ++ paymentId) ≠ signature :=
    Ne.symm hs
  refine ⟨?_, ?_, ?_, ?_⟩ <;> simp [verifyPayment, hp, ho, hs2]

/-- A Payment row freshly initiated for order "ord1". -/
def paymentInitiated : Payment :=
  { razorpayOrderId := "ord1"
    razorpayPaymentId := none
    razorpaySignature := none
    status := PaymentStatus.INITIATED
    method := none
    amount := 29900
    completedAt := none
    failedAt := none
    refundedAt := none }

/-- Store state holding the initiated payment and its initiation log row. -/
def payStateInitiated : PayState :=
  { payment := some paymentInitiated
    dealPaymentStatus := DealPaymentStatus.UNPAID
    dealPaymentId := none
    logs := [{ event := "PAYMENT_INITIATED"
               status := "SUCCESS"
               errorMessage := none }] }

/-- A concrete stand-in for the HMAC primitive, used only in witnesses. -/
def hmacDemo (key msg : String) : String := key ++ ":" ++ msg

/-- A concrete stand-in for JSON serialization of a webhook body. -/
def serializeDemo (wd : WebhookData) : String := wd.event

/-- Witness for C5: a tampered signature on the initiated payment is logged
and rejected. -/
theorem verify_payment_bad_signature_witness :
    verifyPayment hmacDemo "sk" "ord1" "pay1" "bad" 7 payStateInitiated =
      ({ payStateInitiated with
          logs := payStateInitiated.logs ++
            [{ event := "SIGNATURE_VERIFICATION_FAILED"
               status := "FAILED"
               errorMessage := some "Signature verification failed" }] },
        Except.error "Invalid payment signature") :=
  (verify_payment_bad_signature hmacDemo "sk" "ord1" "pay1" "bad" 7
    payStateInitiated paymentInitiated rfl rfl (by decide)).1

/-- A captured, COMPLETED Payment row for order "ord1" / payment "pay1". -/
def paymentCompleted : Payment :=
  { razorpayOrderId := "ord1"
    razorpayPaymentId := some "pay1"
    razorpaySignature := some "sig1"
    status := PaymentStatus.COMPLETED
    method := none
    amount := 29900
    completedAt := some 7
    failedAt := none
    refundedAt := none }

/-- Store state holding the completed payment, a PAID deal, and its log. -/
def payStateCompleted : PayState :=
  { payment := some paymentCompleted
    dealPaymentStatus := DealPaymentStatus.PAID
    dealPaymentId := some "pay1"
    logs := [{ event := "PAYMENT_INITIATED"
               status := "SUCCESS"
               errorMessage := none },
             { event := "PAYMENT_COMPLETED"
               status := "SUCCESS"
               errorMessage := none }] }

/-- Store state with no Payment row at all. -/
def payStateEmpty : PayState :=
  { payment := none
    dealPaymentStatus := DealPaymentStatus.UNPAID
    dealPaymentId := none
    logs := [] }

/-- C6: refundPayment rejects a missing payment, a missing external payment
id, and any non-COMPLETED status; on success it issues the gateway refund
for the full amount and appends PaymentEvent(REFUND_INITIATED, SUCCESS)
while leaving the Payment row (hence its COMPLETED status) unchanged; the
transition to REFUNDED happens only in the refund.completed webhook
handler. -/
theorem refund_leaves_status_completed (s : PayState) :
    (s.payment = none →
      refundPayment s = (s, Except.error "Payment not found")) ∧
    (∀ p, s.payment = some p → p.razorpayPaymentId = none →
      refundPayment s = (s, Except.error "No Razorpay payment to refund")) ∧
    (∀ p rpid, s.payment = some p → p.razorpayPaymentId = some rpid →
      p.status ≠ PaymentStatus.COMPLETED →
      refundPayment s =
        (s, Except.error "Can only refund completed payments")) ∧
    (∀ p rpid, s.payment = some p → p.razorpayPaymentId = some rpid →
      p.status = PaymentStatus.COMPLETED →
      refundPayment s =
        ({ s with
            logs := s.logs ++
              [{ event := "REFUND_INITIATED"
                 status := "SUCCESS"
                 errorMessage := none }] },
          Except.ok { paymentId := rpid, amount := p.amount }) ∧
      (refundPayment s).1.payment = s.payment) ∧
    (∀ p rpid now, ∀ re : WebhookRefundEntity,
      s.payment = some p → p.razorpayPaymentId = some rpid →
      re.payment_id = rpid →
      (handleRefundCompleted
        { event := "refund.completed", payment := none, refund := some re }
        now s).payment.map Payment.status = some PaymentStatus.REFUNDED) := by
  refine ⟨?_, ?_, ?_, ?_, ?_⟩
  · intro hp
    simp [refundPayment, hp]
  · intro p hp hr
    simp [refundPayment, hp, hr]
  · intro p rpid hp hr hst
    simp [refundPayment, hp, hr, hst]
  · intro p rpid hp hr hst
    constructor
    · simp [refundPayment, hp, hr, hst]
    · simp [refundPayment, hp, hr, hst]
  · intro p rpid now re hp hr hre
    simp [handleRefundCompleted, hp, hr, hre]

/-- Witness for C6: refund fails on an absent payment, succeeds on the
completed one with the Payment row untouched, and the refund webhook then
makes it REFUNDED. -/
theorem refund_leaves_status_completed_witness :
    refundPayment payStateEmpty =
      (payStateEmpty, Except.error "Payment not found") ∧
    refundPayment payStateCompleted =
      ({ payStateCompleted with
          logs := payStateCompleted.logs ++
            [{ event := "REFUND_INITIATED"
               status := "SUCCESS"
               errorMessage := none }] },
        Except.ok { paymentId := "pay1", amount := 29900 }) ∧
    (handleRefundCompleted
      { event := "refund.completed", payment := none,
        refund := some { payment_id := "pay1" } }
      11 payStateCompleted).payment.map Payment.status =
        some PaymentStatus.REFUNDED :=
  ⟨(refund_leaves_status_completed payStateEmpty).1 rfl,
    ((refund_leaves_status_completed payStateCompleted).2.2.2.1
      paymentCompleted "pay1" rfl rfl rfl).1,
    (refund_leaves_status_completed payStateCompleted).2.2.2.2
      paymentCompleted "pay1" 11 { payment_id := "pay1" } rfl rfl rfl⟩

/-- C7: the webhook controller acknowledges every delivery with a 200
success response, and when the signature header is missing or does not
match the HMAC of the serialized body under the webhook secret, no state
changes. -/
theorem webhook_always_acknowledged (hmac : String → String → String)
    (serialize : WebhookData → String) (webhookSecret : String)
    (wd : WebhookData) (signatureHeader : Option String) (now : Nat)
    (s : PayState) :
    ((controllerHandleWebhook hmac serialize webhookSecret wd
        signatureHeader now s).2.statusCode = 200 ∧
      (controllerHandleWebhook hmac serialize webhookSecret wd
        signatureHeader now s).2.success = true) ∧
    (signatureHeader = none →
      (controllerHandleWebhook hmac serialize webhookSecret wd
        signatureHeader now s).1 = s) ∧
    (∀ sg, signatureHeader = some sg →
      hmac webhookSecret (serialize wd) ≠ sg →
      (controllerHandleWebhook hmac serialize webhookSecret wd
        signatureHeader now s).1 = s) := by
  refine ⟨?_, ?_, ?_⟩
  · cases signatureHeader with
    | none => simp [controllerHandleWebhook]
    | some sg =>
      by_cases hsig : hmac webhookSecret (serialize wd) ≠ sg
      · simp [controllerHandleWebhook, handleWebhook, hsig]
      · simp [controllerHandleWebhook, handleWebhook, hsig]
  · intro h
    subst h
    simp [controllerHandleWebhook]
  · intro sg hsg hsig
    subst hsg
    simp [controllerHandleWebhook, handleWebhook, hsig]

/-- Witness for C7: a webhook with a wrong signature on the completed-payment
state is acknowledged with 200 and changes nothing. -/
theorem webhook_always_acknowledged_witness :
    (controllerHandleWebhook hmacDemo serializeDemo "whsec"
      { event := "payment.completed", payment := none, refund := none }
      (some "nope") 3 payStateCompleted).2.statusCode = 200 ∧
    (controllerHandleWebhook hmacDemo serializeDemo "whsec"
      { event := "payment.completed", payment := none, refund := none }
      (some "nope") 3 payStateCompleted).1 = payStateCompleted :=
  ⟨(webhook_always_acknowledged hmacDemo serializeDemo "whsec"
      { event := "payment.completed", payment := none, refund := none }
      (some "nope") 3 payStateCompleted).1.1,
    (webhook_always_acknowledged hmacDemo serializeDemo "whsec"
      { event := "payment.completed", payment := none, refund := none }
      (some "nope") 3 payStateCompleted).2.2 "nope" rfl (by decide)⟩

/-- A payment.completed webhook entity matching the completed payment. -/
def webhookCompletedDemo : WebhookData :=
  { event := "payment.completed"
    payment := some { id := "pay1", order_id := "ord1", method := "upi" }
    refund := none }

/-- C8 counterexample: replaying a payment.completed webhook on an
already-COMPLETED payment is not a no-op — the state changes, with a
duplicate PAYMENT_COMPLETED audit row appended. -/
theorem completed_payment_replay_not_noop_cex :
    payStateCompleted.payment.map Payment.status =
      some PaymentStatus.COMPLETED ∧
    handlePaymentCompleted webhookCompletedDemo 9 payStateCompleted ≠
      payStateCompleted ∧
    (handlePaymentCompleted webhookCompletedDemo 9 payStateCompleted).logs =
      payStateCompleted.logs ++
        [{ event := "PAYMENT_COMPLETED"
           status := "SUCCESS"
           errorMessage := none }] := by
  decide

/-- C8 amended: a further payment.completed webhook or valid verifyPayment
on an already-COMPLETED payment succeeds without error and leaves the final
status COMPLETED with the deal PAID, but it re-executes the writes: the
payment and deal rows are updated again and a duplicate PAYMENT_COMPLETED
event is appended. -/
theorem completed_payment_replay_amended (s : PayState) (p : Payment)
    (pe : WebhookPaymentEntity) (now : Nat)
    (hp : s.payment = some p) (hst : p.status = PaymentStatus.COMPLETED)
    (hid : p.razorpayPaymentId = some pe.id) :
    ((handlePaymentCompleted
        { event := "payment.completed", payment := some pe, refund := none }
        now s).payment.map Payment.status = some PaymentStatus.COMPLETED ∧
      (handlePaymentCompleted
        { event := "payment.completed", payment := some pe, refund := none }
        now s).dealPaymentStatus = DealPaymentStatus.PAID ∧
      (handlePaymentCompleted
        { event := "payment.completed", payment := some pe, refund := none }
        now s).logs = s.logs ++
          [{ event := "PAYMENT_COMPLETED"
             status := "SUCCESS"
             errorMessage := none }]) ∧
    (∀ hmac : String → String → String, ∀ keySecret paymentId : String,
      ∀ now2 : Nat,
      verifyPayment hmac keySecret p.razorpayOrderId paymentId
        (hmac keySecret (p.razorpayOrderId ++ "|" ++ paymentId)) now2 s =
        ({ s with
            payment := some
              { p with
                razorpayPaymentId := some paymentId
                razorpaySignature :=
                  some (hmac keySecret (p.razorpayOrderId ++ "|" ++ paymentId))
                status := PaymentStatus.COMPLETED
                completedAt := some now2 }
            dealPaymentStatus := DealPaymentStatus.PAID
            dealPaymentId := some paymentId
            logs := s.logs ++
              [{ event := "PAYMENT_COMPLETED"
                 status := "SUCCESS"
                 errorMessage := none }] },
          Except.ok
            { p with
              razorpayPaymentId := some paymentId
              razorpaySignature :=
                some (hmac keySecret (p.razorpayOrderId ++ "|" ++ paymentId))
              status := PaymentStatus.COMPLETED
              completedAt := some now2 })) := by
  constructor
  · refine ⟨?_, ?_, ?_⟩ <;> simp [handlePaymentCompleted, hp, hid]
  · intro hmac keySecret paymentId now2
    simp [verifyPayment, hp]

/-- Witness for the amended C8 on the concrete completed payment. -/
theorem completed_payment_replay_amended_witness :
    (handlePaymentCompleted webhookCompletedDemo 9 payStateCompleted).payment.map
        Payment.status = some PaymentStatus.COMPLETED ∧
    (handlePaymentCompleted webhookCompletedDemo 9
      payStateCompleted).dealPaymentStatus = DealPaymentStatus.PAID :=
  ⟨((completed_payment_replay_amended payStateCompleted paymentCompleted
      { id := "pay1", order_id := "ord1", method := "upi" } 9
      rfl rfl rfl).1).1,
    ((completed_payment_replay_amended payStateCompleted paymentCompleted
      { id := "pay1", order_id := "ord1", method := "upi" } 9
      rfl rfl rfl).1).2.1⟩

/-- C9 counterexample: with no Payment row, the service returns null without
error, but the HTTP controller responds 404 NotFound, not a 200 success
carrying null. -/
theorem get_payment_details_null_is_404_cex :
    getPaymentDetails payStateEmpty = none ∧
    controllerGetPaymentDetails payStateEmpty =
      { statusCode := 404, success := false, message := "Payment not found" } := by
  decide

/-- C9 amended: getPaymentDetails is read-only and returns the payment with
its events ordered newest-first, or null (no error) when absent — but at the
HTTP boundary the controller converts the null into a 404 NotFound response
instead of a 200 with null. -/
theorem get_payment_details_amended (s : PayState) :
    (s.payment = none →
      getPaymentDetails s = none ∧
      controllerGetPaymentDetails s =
        { statusCode := 404, success := false, message := "Payment not found" }) ∧
    (∀ p, s.payment = some p →
      getPaymentDetails s = some { payment := p, logs := s.logs.reverse } ∧
      (controllerGetPaymentDetails s).statusCode = 200 ∧
      (controllerGetPaymentDetails s).success = true) := by
  constructor
  · intro hp
    constructor
    · simp [getPaymentDetails, hp]
    · simp [controllerGetPaymentDetails, getPaymentDetails, hp]
  · intro p hp
    refine ⟨?_, ?_, ?_⟩ <;>
      simp [controllerGetPaymentDetails, getPaymentDetails, hp]

/-- Witness for the amended C9 at both an empty and a populated store. -/
theorem get_payment_details_amended_witness :
    controllerGetPaymentDetails payStateEmpty =
      { statusCode := 404, success := false, message := "Payment not found" } ∧
    getPaymentDetails payStateCompleted =
      some { payment := paymentCompleted,
             logs := payStateCompleted.logs.reverse } ∧
    (controllerGetPaymentDetails payStateCompleted).statusCode = 200 :=
  ⟨((get_payment_details_amended payStateEmpty).1 rfl).2,
    ((get_payment_details_amended payStateCompleted).2 paymentCompleted
      rfl).1,
    ((get_payment_details_amended payStateCompleted).2 paymentCompleted
      rfl).2.1⟩

end RentDirect
